import Mathlib

/-!
Shallow embedding of the locally-authored logic of the x402-agent wallet
(src/unnamed/part_001) and of the spec-described orchestration it delegates:
the payment-policy filter installed by `createWallet`, the private-key
normalization, the `get`/`post` response processing, and `getBalance`.
-/

namespace X402Agent

/-- One payment offer carried by a server's HTTP 402 response.  The policy in
`createWallet` reads only the two amount fields (`a.maxAmountRequired`,
`a.amount`); the remaining fields ride along untouched. -/
structure PaymentRequirement where
  scheme : String
  network : String
  maxAmountRequired : Option String
  amount : Option String
  asset : String
  payTo : String
deriving DecidableEq

/-- JS truthiness fallback `x || y` for an optional string field: a missing
(`undefined`) field and the empty string are both falsy. -/
def jsOrString (x : Option String) (y : String) : String :=
  match x with
  | none => y
  | some s => if s = "" then y else s

/-- The string the policy parses: `a.maxAmountRequired || a.amount || '0'`. -/
def amountString (a : PaymentRequirement) : String :=
  jsOrString a.maxAmountRequired (jsOrString a.amount "0")

/-- Decimal value of a digit list, most significant digit first. -/
def digitsToNat (l : List Char) : Nat :=
  l.foldl (fun n c => 10 * n + (c.toNat - 48)) 0

/-- JS `parseInt(s, 10)`: skip leading whitespace, read an optional sign, then
the longest run of decimal digits; `none` models the `NaN` result produced
when no digit is found. -/
def parseIntJS (s : String) : Option Int :=
  match s.data.dropWhile Char.isWhitespace with
  | '-' :: rest =>
      let d := rest.takeWhile Char.isDigit
      if d.isEmpty then none else some (-(digitsToNat d : Int))
  | '+' :: rest =>
      let d := rest.takeWhile Char.isDigit
      if d.isEmpty then none else some ((digitsToNat d : Int))
  | other =>
      let d := other.takeWhile Char.isDigit
      if d.isEmpty then none else some ((digitsToNat d : Int))

/-- The policy predicate: the source computes `amountCents = parseInt(...) /
10000` by exact division and tests `amountCents <= maxPayment`; scaling both
sides by `10000` gives the equivalent integer comparison used here (the
equivalence with the literal rational reading is
`acceptsRequirement_iff_div_le`).  A `NaN` amount compares false in JS, so an
unparseable requirement is dropped. -/
def acceptsRequirement (maxPayment : Int) (a : PaymentRequirement) : Bool :=
  match parseIntJS (amountString a) with
  | none => false
  | some n => decide (n ≤ maxPayment * 10000)

/-- Resolution of the `maxPayment` option of `createWallet`: an omitted option
takes the destructuring default of 100 cents. -/
def resolveMaxPayment (maxPaymentOption : Option Int) : Int :=
  maxPaymentOption.getD 100

/-- The requirement filter the wallet installs: when the resolved `maxPayment`
is truthy, one filtering policy runs over the offered requirements; a falsy
(zero) value installs no policy at all and the list passes through
unchanged. -/
def walletPolicy (maxPaymentOption : Option Int) (accepts : List PaymentRequirement) :
    List PaymentRequirement :=
  let maxPayment := resolveMaxPayment maxPaymentOption
  if maxPayment = 0 then accepts
  else accepts.filter (acceptsRequirement maxPayment)

/-- Claim-side predicate, following the claim's own words: the requirement's
amount (`maxAmountRequired`, falling back to `amount`), parsed as a base-10
integer and divided (exactly) by `10 ^ 4`, is at most the budget. -/
def withinBudgetSpec (budget : Int) (a : PaymentRequirement) : Prop :=
  ∃ n, parseIntJS (amountString a) = some n ∧ (n : ℚ) / 10 ^ 4 ≤ (budget : ℚ)

/-- Modelled from the spec: a payment authorization produced by the external
scheme client for one accepted requirement (data model of spec section 3);
single-use, tied to one outgoing request. -/
structure PaymentAuthorization where
  requirement : PaymentRequirement
  signature : String
deriving DecidableEq

/-- An HTTP response as the wrapper sees it: status code, the ordered payment
requirements a 402 carries, the lower-cased header names present, and the body
text. -/
structure Response where
  status : Nat
  requirements : List PaymentRequirement
  headers : List String
  body : String
deriving DecidableEq

/-- Outcome of one logical payment-wrapped fetch: either a final response or a
policy rejection keeping the original 402 inspectable. -/
inductive FetchResult
  | ok (final : Response)
  | policyRejection (original : Response)
deriving DecidableEq

/-- Trace of one logical call: how many underlying HTTP requests went out, how
many signing requests were made to the scheme client, and the result. -/
structure FetchTrace where
  requestCount : Nat
  signCount : Nat
  result : FetchResult
deriving DecidableEq

/-- Modelled from the spec: the orchestration of the external package
`@x402/fetch` that `createWallet` installs via its wrap-fetch call (spec
section 4.3), absent from src/.  Issue the request; on a 402 apply the policy
to the offered requirements; if none survives, reject without signing;
otherwise sign one surviving requirement and reissue the request exactly once,
returning the retried response as terminal whatever its status.
`serverOnRetry` is the server's response to the single retried request
carrying the authorization. -/
def wrapFetchWithPayment
    (policy : List PaymentRequirement → List PaymentRequirement)
    (sign : PaymentRequirement → PaymentAuthorization)
    (first : Response)
    (serverOnRetry : PaymentAuthorization → Response) : FetchTrace :=
  if first.status = 402 then
    match policy first.requirements with
    | [] => ⟨1, 0, .policyRejection first⟩
    | r :: _ => ⟨2, 1, .ok (serverOnRetry (sign r))⟩
  else ⟨1, 0, .ok first⟩

/-- The parsed body of a `get`/`post` result: either a successfully parsed
JSON value or, when parsing fails, the raw body text itself. -/
inductive ParsedBody (α : Type)
  | json (value : α)
  | text (raw : String)
deriving DecidableEq

/-- The body handling shared by `get` and `post`: read the body as text, try a
JSON parse, and fall back to the raw text when the parse fails.  `parse` is
the external `JSON.parse`, returning `none` on invalid JSON where JS throws
(the catch branch of the source). -/
def parseBody {α : Type} (parse : String → Option α) (data : String) : ParsedBody α :=
  match parse data with
  | some value => .json value
  | none => .text data

/-- Result shape of `wallet.get` / `wallet.post`. -/
structure RequestResult (α : Type) where
  status : Nat
  data : ParsedBody α
  paid : Bool
deriving DecidableEq

/-- The paid flag computed by `get`/`post`: the final response carries an
`x-payment-response` or `payment-response` header. -/
def hasPaymentResponseHeader (response : Response) : Bool :=
  response.headers.contains "x-payment-response"
    || response.headers.contains "payment-response"

/-- `wallet.get`, applied to the final response produced by the
payment-wrapped fetch. -/
def walletGet {α : Type} (parse : String → Option α) (response : Response) :
    RequestResult α :=
  ⟨response.status, parseBody parse response.body, hasPaymentResponseHeader response⟩

/-- `wallet.post`: its response post-processing is identical to `get`. -/
def walletPost {α : Type} (parse : String → Option α) (response : Response) :
    RequestResult α :=
  ⟨response.status, parseBody parse response.body, hasPaymentResponseHeader response⟩

/-- The claim's reading of "carries a payment-confirmation header". -/
def carriesPaymentConfirmation (response : Response) : Prop :=
  "x-payment-response" ∈ response.headers ∨ "payment-response" ∈ response.headers

instance (response : Response) : Decidable (carriesPaymentConfirmation response) := by
  unfold carriesPaymentConfirmation
  infer_instance

/-- The fixed network → USDC contract address mapping. -/
def USDC_ADDRESSES : List (String × String) :=
  [("eip155:8453", "0x833589fCD6eDb6E08f4c7C32D4f71b54bdA02913"),
   ("eip155:84532", "0x036CbD53842c5426634e7929541eC2318f3dCF7e")]

/-- The property lookup `USDC_ADDRESSES[network]`. -/
def lookupUsdcAddress (network : String) : Option String :=
  (USDC_ADDRESSES.find? (fun p => p.1 == network)).map Prod.snd

/-- The two read-only contract views `getBalance` consults, as pure views of
the external chain client: `balanceOf(account)` and `decimals()`, each keyed
by the contract address queried. -/
structure ChainClient where
  balanceOf : String → String → Nat
  decimals : String → Nat

/-- Modelled from the spec: viem's `formatUnits`, external to this repository —
"scale the raw integer balance by `10^-decimals` to produce a human-readable
decimal string".  Pad the digit string to at least `decimals` places, split
off the last `decimals` digits as the fraction, drop the fraction's trailing
zeros, and render `integer.fraction`, with no point when the fraction is
empty and a lone `0` when the integer part is empty. -/
def formatUnits (value : Nat) (decimals : Nat) : String :=
  let digits := (toString value).data
  let display := List.replicate (decimals - digits.length) '0' ++ digits
  let integer := display.take (display.length - decimals)
  let fraction :=
    List.reverse ((display.drop (display.length - decimals)).reverse.dropWhile (fun c => c = '0'))
  (if integer.isEmpty then "0" else String.mk integer)
    ++ (if fraction.isEmpty then "" else "." ++ String.mk fraction)

/-- The record `getBalance` resolves with. -/
structure BalanceResult where
  balance : String
  formatted : String
  currency : String
  network : String
deriving DecidableEq

/-- Outcome of `wallet.getBalance`: the thrown unsupported-network error, or
the formatted balance record. -/
inductive BalanceOutcome
  | unsupportedNetwork (message : String)
  | ok (result : BalanceResult)
deriving DecidableEq

/-- `wallet.getBalance`, returning the outcome together with the ordered list
of chain-client reads issued: an unmapped network throws before any read; a
mapped network issues `balanceOf` then `decimals` and formats the result. -/
def getBalance (network : String) (accountAddress : String) (chain : ChainClient) :
    BalanceOutcome × List String :=
  match lookupUsdcAddress network with
  | none => (.unsupportedNetwork ("Unknown USDC address for network " ++ network), [])
  | some usdcAddress =>
      let balance := chain.balanceOf usdcAddress accountAddress
      let decimals := chain.decimals usdcAddress
      (.ok ⟨toString balance, formatUnits balance decimals, "USDC", network⟩,
        ["balanceOf", "decimals"])

/-- JS `privateKey.startsWith('0x')`: the first two characters are `0`, `x`. -/
def startsWith0x (s : String) : Bool :=
  match s.data with
  | c1 :: c2 :: _ => c1 = '0' && c2 = 'x'
  | _ => false

/-- Key normalization in `createWallet`: prepend `0x` exactly when that
leading marker is absent; the canonical string is handed unchanged to the
external account-derivation collaborator. -/
def normalizeKey (privateKey : String) : String :=
  if startsWith0x privateKey then privateKey else "0x" ++ privateKey

/-- A hexadecimal digit: `0`-`9`, `a`-`f` or `A`-`F`. -/
def isHexDigitChar (c : Char) : Bool :=
  c.isDigit || ('a' ≤ c && c ≤ 'f') || ('A' ≤ c && c ≤ 'F')

/-- A bare hex key body: every character is a hex digit. -/
def isHexBody (s : String) : Bool :=
  s.data.all isHexDigitChar

/- Concrete fixtures used by the witness theorems. -/

/-- A 40-cent requirement (400000 smallest units of the 6-decimal asset). -/
def reqCheap : PaymentRequirement :=
  ⟨"exact", "eip155:8453", some "400000", none, "USDC", "0xserver"⟩

/-- A 60-cent requirement (600000 smallest units). -/
def reqCostly : PaymentRequirement :=
  ⟨"exact", "eip155:8453", some "600000", none, "USDC", "0xserver"⟩

/-- A 200-cent requirement (2000000 smallest units). -/
def reqTwoDollars : PaymentRequirement :=
  ⟨"exact", "eip155:8453", some "2000000", none, "USDC", "0xserver"⟩

/-- A requirement carrying no amount field at all. -/
def reqNoAmount : PaymentRequirement :=
  ⟨"exact", "eip155:8453", none, none, "USDC", "0xserver"⟩

/-- A 402 response offering the cheap requirement. -/
def resp402Cheap : Response := ⟨402, [reqCheap], [], "payment required"⟩

/-- A 402 response offering only the costly requirement. -/
def resp402Costly : Response := ⟨402, [reqCostly], [], "payment required"⟩

/-- A second consecutive 402, offered to the retried request. -/
def resp402Again : Response := ⟨402, [], [], "still payment required"⟩

/-- A plain scheme-client stand-in for witnesses. -/
def signFixture : PaymentRequirement → PaymentAuthorization :=
  fun r => ⟨r, "sig"⟩

/-- A chain client answering 1234567 smallest units and 6 decimals. -/
def chainFixture : ChainClient :=
  ⟨fun _ _ => 1234567, fun _ => 6⟩

/-- A concrete stand-in for the external JSON parser in witnesses: accepts
exactly the all-digit bodies, as a number. -/
def parseDigitsBody (s : String) : Option Nat :=
  if !s.data.isEmpty && s.data.all Char.isDigit then some (digitsToNat s.data) else none

/-- A 200 response whose body is not valid JSON and which carries a payment
confirmation header. -/
def respTextBody : Response := ⟨200, [], ["x-payment-response"], "not json"⟩

/- Theorems. -/

/-- The integer comparison in `acceptsRequirement` is the source's exact
rational test `parseInt(...) / 10000 <= maxPayment`. -/
theorem acceptsRequirement_iff_div_le (m n : Int) :
    n ≤ m * 10000 ↔ (n : ℚ) / 10000 ≤ (m : ℚ) := by
  rw [div_le_iff₀ (by norm_num : (0 : ℚ) < 10000)]
  exact_mod_cast Iff.rfl

/-- The policy predicate holds of a requirement exactly when its amount,
parsed base 10 and divided by `10 ^ 4`, is at most the budget. -/
theorem acceptsRequirement_eq_true_iff (m : Int) (a : PaymentRequirement) :
    acceptsRequirement m a = true ↔ withinBudgetSpec m a := by
  unfold acceptsRequirement withinBudgetSpec
  cases h : parseIntJS (amountString a) with
  | none => simp [h]
  | some n =>
      simp only [h, Option.some.injEq, decide_eq_true_eq]
      constructor
      · intro hle
        refine ⟨n, rfl, ?_⟩
        rw [show ((10 : ℚ) ^ 4 = 10000) by norm_num]
        exact (acceptsRequirement_iff_div_le m n).mp hle
      · rintro ⟨n', hn', hle⟩
        cases hn'
        rw [show ((10 : ℚ) ^ 4 = 10000) by norm_num] at hle
        exact (acceptsRequirement_iff_div_le m n).mpr hle

/-- Claim C1: for every positive budget the installed policy is a stable
filter: its output is an order-preserving subsequence of the input, it is
exactly the filter of the input by the policy predicate, and that predicate
holds of a requirement precisely when its amount (`maxAmountRequired`,
falling back to `amount`), parsed as a base-10 integer and divided by
`10 ^ 4`, is at most the budget — so nothing is reordered, modified or
added. -/
theorem walletPolicy_filters_within_budget (maxPayment : Int) (hpos : 0 < maxPayment)
    (accepts : List PaymentRequirement) :
    (walletPolicy (some maxPayment) accepts).Sublist accepts ∧
    walletPolicy (some maxPayment) accepts
      = accepts.filter (acceptsRequirement maxPayment) ∧
    ∀ a, acceptsRequirement maxPayment a = true ↔ withinBudgetSpec maxPayment a := by
  have heq : walletPolicy (some maxPayment) accepts
      = accepts.filter (acceptsRequirement maxPayment) := by
    unfold walletPolicy
    simp [resolveMaxPayment, show maxPayment ≠ 0 by omega]
  refine ⟨?_, heq, fun a => acceptsRequirement_eq_true_iff maxPayment a⟩
  rw [heq]
  exact List.filter_sublist accepts

/-- Witness for claim C1 at budget 50 on a 40-cent and a 60-cent offer. -/
theorem walletPolicy_filters_within_budget_witness :
    (walletPolicy (some 50) [reqCheap, reqCostly]).Sublist [reqCheap, reqCostly] ∧
    walletPolicy (some 50) [reqCheap, reqCostly]
      = [reqCheap, reqCostly].filter (acceptsRequirement 50) ∧
    ∀ a, acceptsRequirement 50 a = true ↔ withinBudgetSpec 50 a :=
  walletPolicy_filters_within_budget 50 (by decide) [reqCheap, reqCostly]

/-- Claim C2 counterexample: with `maxPayment` omitted at wallet creation the
destructuring default of 100 cents applies and filtering does occur — a
200-cent requirement is removed, so the input does not pass through
unchanged. -/
theorem walletPolicy_omitted_budget_filters :
    walletPolicy none [reqTwoDollars] ≠ [reqTwoDollars] := by decide

/-- Claim C2 (amended): only an explicitly falsy — zero — `maxPayment`
disables filtering, in which case every requirement is accepted and the input
is yielded unchanged; an omitted `maxPayment` instead defaults to 100 cents
and does filter. -/
theorem walletPolicy_zero_budget_no_filtering (accepts : List PaymentRequirement) :
    walletPolicy (some 0) accepts = accepts := by
  simp [walletPolicy, resolveMaxPayment]

/-- Claim C10: a requirement with both amount fields absent falls back to the
string "0", which parses to 0 cents and lies within every non-negative
budget, so the installed policy keeps such a requirement. -/
theorem walletPolicy_accepts_missing_amount (maxPayment : Int) (hnn : 0 ≤ maxPayment)
    (a : PaymentRequirement) (hmax : a.maxAmountRequired = none) (hamt : a.amount = none)
    (accepts : List PaymentRequirement) (hmem : a ∈ accepts) :
    amountString a = "0" ∧ acceptsRequirement maxPayment a = true ∧
    a ∈ walletPolicy (some maxPayment) accepts := by
  have hstr : amountString a = "0" := by
    unfold amountString jsOrString
    rw [hmax, hamt]
  have hacc : acceptsRequirement maxPayment a = true := by
    unfold acceptsRequirement
    rw [hstr, show parseIntJS "0" = some 0 by decide]
    simp only [decide_eq_true_eq]
    omega
  refine ⟨hstr, hacc, ?_⟩
  unfold walletPolicy
  by_cases h0 : resolveMaxPayment (some maxPayment) = 0
  · simp [h0, hmem]
  · simp only [h0, if_false]
    have : resolveMaxPayment (some maxPayment) = maxPayment := rfl
    rw [this]
    exact List.mem_filter.mpr ⟨hmem, hacc⟩

/-- Witness for claim C10 at budget 5 on an amount-less requirement. -/
theorem walletPolicy_accepts_missing_amount_witness :
    amountString reqNoAmount = "0" ∧ acceptsRequirement 5 reqNoAmount = true ∧
    reqNoAmount ∈ walletPolicy (some 5) [reqNoAmount] :=
  walletPolicy_accepts_missing_amount 5 (by decide) reqNoAmount rfl rfl [reqNoAmount]
    (List.mem_singleton.mpr rfl)

/-- Claim C3: one logical call through the payment-wrapped fetch issues at
most two underlying requests, and whenever a retry happens the retried
response is returned as terminal — even a second consecutive 402 triggers no
further request. -/
theorem wrapFetch_at_most_two_requests
    (policy : List PaymentRequirement → List PaymentRequirement)
    (sign : PaymentRequirement → PaymentAuthorization)
    (first : Response) (serverOnRetry : PaymentAuthorization → Response) :
    (wrapFetchWithPayment policy sign first serverOnRetry).requestCount ≤ 2 ∧
    (∀ r rest, first.status = 402 → policy first.requirements = r :: rest →
      wrapFetchWithPayment policy sign first serverOnRetry
        = ⟨2, 1, .ok (serverOnRetry (sign r))⟩) := by
  constructor
  · unfold wrapFetchWithPayment
    by_cases h : first.status = 402
    · rw [if_pos h]
      cases policy first.requirements <;> simp
    · rw [if_neg h]
      simp
  · intro r rest h402 hsel
    unfold wrapFetchWithPayment
    rw [if_pos h402, hsel]

/-- Witness for claim C3: a 402, one in-budget offer, and a server that
answers the retry with a second 402 — two requests, then terminal. -/
theorem wrapFetch_at_most_two_requests_witness :
    (wrapFetchWithPayment id signFixture resp402Cheap
        (fun _ => resp402Again)).requestCount ≤ 2 ∧
    wrapFetchWithPayment id signFixture resp402Cheap (fun _ => resp402Again)
      = ⟨2, 1, .ok resp402Again⟩ := by
  have h := wrapFetch_at_most_two_requests id signFixture resp402Cheap
    (fun _ => resp402Again)
  exact ⟨h.1, h.2 reqCheap [] rfl rfl⟩

/-- Claim C4: when the policy empties a 402's requirement list the
orchestrator produces a policy rejection after the single initial request and
never asks the scheme client to sign. -/
theorem wrapFetch_empty_policy_rejects
    (policy : List PaymentRequirement → List PaymentRequirement)
    (sign : PaymentRequirement → PaymentAuthorization)
    (first : Response) (serverOnRetry : PaymentAuthorization → Response)
    (h402 : first.status = 402) (hempty : policy first.requirements = []) :
    wrapFetchWithPayment policy sign first serverOnRetry
      = ⟨1, 0, .policyRejection first⟩ := by
  unfold wrapFetchWithPayment
  rw [if_pos h402, hempty]

/-- Witness for claim C4: the wallet policy at budget 50 empties a 402
offering only a 60-cent requirement, so the call is rejected unsigned. -/
theorem wrapFetch_empty_policy_rejects_witness :
    wrapFetchWithPayment (walletPolicy (some 50)) signFixture resp402Costly
        (fun _ => resp402Again)
      = ⟨1, 0, .policyRejection resp402Costly⟩ :=
  wrapFetch_empty_policy_rejects (walletPolicy (some 50)) signFixture resp402Costly
    (fun _ => resp402Again) rfl (by decide)

/-- Claim C5: `get` and `post` never raise on a non-JSON body — when the JSON
parse of the body text fails, the raw text itself is returned as the `data`
field of the result. -/
theorem get_post_fall_back_to_raw_text {α : Type} (parse : String → Option α)
    (response : Response) (hfail : parse response.body = none) :
    (walletGet parse response).data = .text response.body ∧
    (walletPost parse response).data = .text response.body := by
  simp [walletGet, walletPost, parseBody, hfail]

/-- Witness for claim C5: a digit-only parser fails on the body "not json"
and both wrappers return the raw text. -/
theorem get_post_fall_back_to_raw_text_witness :
    (walletGet parseDigitsBody respTextBody).data = .text "not json" ∧
    (walletPost parseDigitsBody respTextBody).data = .text "not json" :=
  get_post_fall_back_to_raw_text parseDigitsBody respTextBody (by decide)

/-- Claim C6: the `paid` flag of `get` and `post` is true exactly when the
final response carries a payment-confirmation header (`x-payment-response` or
`payment-response`) and false otherwise — in particular when payment was
never required and no such header is present. -/
theorem get_post_paid_iff_confirmation_header {α : Type} (parse : String → Option α)
    (response : Response) :
    ((walletGet parse response).paid = true ↔ carriesPaymentConfirmation response) ∧
    ((walletPost parse response).paid = true ↔ carriesPaymentConfirmation response) := by
  unfold walletGet walletPost carriesPaymentConfirmation hasPaymentResponseHeader
  constructor <;> simp

/-- Claim C7: a network absent from the fixed USDC mapping makes `getBalance`
fail with the unsupported-network error before issuing any chain-client
call. -/
theorem getBalance_unsupported_network (network accountAddress : String)
    (chain : ChainClient) (hmiss : lookupUsdcAddress network = none) :
    getBalance network accountAddress chain
      = (.unsupportedNetwork ("Unknown USDC address for network " ++ network), []) := by
  unfold getBalance
  rw [hmiss]

/-- Witness for claim C7 on the unmapped network `eip155:1`. -/
theorem getBalance_unsupported_network_witness :
    getBalance "eip155:1" "0xagentaddress" chainFixture
      = (.unsupportedNetwork ("Unknown USDC address for network " ++ "eip155:1"), []) :=
  getBalance_unsupported_network "eip155:1" "0xagentaddress" chainFixture (by decide)

/-- Claim C8: on a mapped network `getBalance` issues exactly the two reads
`balanceOf` then `decimals` against the mapped USDC contract and returns the
raw integer balance as a string, the balance scaled by `10^-decimals` as a
decimal string, the currency label "USDC" and the wallet's network. -/
theorem getBalance_mapped_network (network accountAddress usdcAddress : String)
    (chain : ChainClient) (hhit : lookupUsdcAddress network = some usdcAddress) :
    getBalance network accountAddress chain
      = (.ok ⟨toString (chain.balanceOf usdcAddress accountAddress),
              formatUnits (chain.balanceOf usdcAddress accountAddress)
                (chain.decimals usdcAddress),
              "USDC", network⟩,
         ["balanceOf", "decimals"]) := by
  unfold getBalance
  rw [hhit]

/-- Witness for claim C8 on Base mainnet: 1234567 raw units at 6 decimals
format as "1.234567". -/
theorem getBalance_mapped_network_witness :
    getBalance "eip155:8453" "0xagentaddress" chainFixture
      = (.ok ⟨"1234567", "1.234567", "USDC", "eip155:8453"⟩,
         ["balanceOf", "decimals"]) := by
  have h := getBalance_mapped_network "eip155:8453" "0xagentaddress"
    "0x833589fCD6eDb6E08f4c7C32D4f71b54bdA02913" chainFixture (by decide)
  rw [h]
  decide

/-- A hex character is never the letter `x`, so a bare hex key body does not
start with the `0x` marker. -/
theorem startsWith0x_eq_false_of_hex (s : String) (h : isHexBody s = true) :
    startsWith0x s = false := by
  unfold startsWith0x
  unfold isHexBody at h
  cases hs : s.data with
  | nil => rfl
  | cons c1 tl =>
      cases tl with
      | nil => rfl
      | cons c2 tl2 =>
          have h2 : isHexDigitChar c2 = true := by
            rw [hs] at h
            simp only [List.all_cons, Bool.and_eq_true] at h
            exact h.2.1
          by_cases hx : c2 = 'x'
          · rw [hx] at h2
            exact absurd h2 (by decide)
          · simp [hx]

/-- Claim C9: a valid bare hex key and its `0x`-marked form normalize to the
same canonical string — normalization prepends `0x` exactly when the marker
is absent and leaves a marked key unchanged — so the external account
derivation receives the same input and yields the same address for both
spellings. -/
theorem normalizeKey_hex_key_invariance {α : Type} (derive : String → α) (k : String)
    (hhex : isHexBody k = true) :
    normalizeKey ("0x" ++ k) = "0x" ++ k ∧
    normalizeKey k = "0x" ++ k ∧
    derive (normalizeKey ("0x" ++ k)) = derive (normalizeKey k) := by
  have hdata : ("0x" ++ k).data = '0' :: 'x' :: k.data := by
    rw [String.data_append]
    rfl
  have h1 : startsWith0x ("0x" ++ k) = true := by
    unfold startsWith0x
    rw [hdata]
    rfl
  have h2 : startsWith0x k = false := startsWith0x_eq_false_of_hex k hhex
  have e1 : normalizeKey ("0x" ++ k) = "0x" ++ k := by
    simp [normalizeKey, h1]
  have e2 : normalizeKey k = "0x" ++ k := by
    simp [normalizeKey, h2]
  exact ⟨e1, e2, by rw [e1, e2]⟩

/-- Witness for claim C9 on the bare key "abc123" with length as the
derivation stand-in. -/
theorem normalizeKey_hex_key_invariance_witness :
    normalizeKey ("0x" ++ "abc123") = "0x" ++ "abc123" ∧
    normalizeKey "abc123" = "0x" ++ "abc123" ∧
    String.length (normalizeKey ("0x" ++ "abc123"))
      = String.length (normalizeKey "abc123") :=
  normalizeKey_hex_key_invariance String.length "abc123" (by decide)

end X402Agent
